import Mathlib

/-!
Verification of the buffer module of a graphics hardware-abstraction layer
(src/hal/src/buffer.rs): usage/access bit-fields, the view-error display
contract, and the requirements-negotiation function complete_requirements.

Bit-fields are u16 values; all bitwise operations on the named flags stay
below 2^16, so Nat models them exactly (no overflow site exists).
-/

namespace GfxBuffer

/-- Buffer usage flags: a u16 bit-field (bitflags), nine named bits. -/
structure Usage where
  bits : Nat
deriving DecidableEq, Repr

namespace Usage

def TRANSFER_SRC : Usage := ⟨0x1⟩

def TRANSFER_DST : Usage := ⟨0x2⟩

def UNIFORM : Usage := ⟨0x4⟩

def STORAGE : Usage := ⟨0x8⟩

def UNIFORM_TEXEL : Usage := ⟨0x10⟩

def STORAGE_TEXEL : Usage := ⟨0x20⟩

def INDEX : Usage := ⟨0x40⟩

def INDIRECT : Usage := ⟨0x80⟩

def VERTEX : Usage := ⟨0x100⟩

/-- bitflags union (bitwise or). -/
def union (a b : Usage) : Usage := ⟨a.bits ||| b.bits⟩

/-- bitflags intersects: true when the two values share a set bit. -/
def intersects (a b : Usage) : Bool := a.bits &&& b.bits != 0

/-- bitflags contains: every bit of the second value is set in the first. -/
def contains (a b : Usage) : Bool := a.bits &&& b.bits == b.bits

/-- Usage::can_transfer: self.intersects(TRANSFER_SRC | TRANSFER_DST). -/
def can_transfer (u : Usage) : Bool :=
  u.intersects (union TRANSFER_SRC TRANSFER_DST)

end Usage

/-- The nine named Usage constants, in declaration order. -/
def usageFlags : List Usage :=
  [Usage.TRANSFER_SRC, Usage.TRANSFER_DST, Usage.UNIFORM, Usage.STORAGE,
   Usage.UNIFORM_TEXEL, Usage.STORAGE_TEXEL, Usage.INDEX, Usage.INDIRECT,
   Usage.VERTEX]

/-- Buffer state flags: a u16 bit-field (bitflags), twelve named bits. -/
structure Access where
  bits : Nat
deriving DecidableEq, Repr

namespace Access

def TRANSFER_READ : Access := ⟨0x01⟩

def TRANSFER_WRITE : Access := ⟨0x02⟩

def INDEX_BUFFER_READ : Access := ⟨0x10⟩

def VERTEX_BUFFER_READ : Access := ⟨0x20⟩

def CONSTANT_BUFFER_READ : Access := ⟨0x40⟩

def INDIRECT_COMMAND_READ : Access := ⟨0x80⟩

def SHADER_READ : Access := ⟨0x100⟩

def SHADER_WRITE : Access := ⟨0x200⟩

def HOST_READ : Access := ⟨0x400⟩

def HOST_WRITE : Access := ⟨0x800⟩

def MEMORY_READ : Access := ⟨0x1000⟩

def MEMORY_WRITE : Access := ⟨0x2000⟩

end Access

/-- The twelve named Access constants, in declaration order. -/
def accessFlags : List Access :=
  [Access.TRANSFER_READ, Access.TRANSFER_WRITE, Access.INDEX_BUFFER_READ,
   Access.VERTEX_BUFFER_READ, Access.CONSTANT_BUFFER_READ,
   Access.INDIRECT_COMMAND_READ, Access.SHADER_READ, Access.SHADER_WRITE,
   Access.HOST_READ, Access.HOST_WRITE, Access.MEMORY_READ,
   Access.MEMORY_WRITE]

/-- Error creating a BufferView. -/
inductive ViewError where
  | Usage (u : Usage)
  | Unsupported
deriving DecidableEq

/-- Name/value table of the Usage flags, used by the derived Debug
rendering of the bit-field. -/
def usageFlagNameTable : List (String × Nat) :=
  [("TRANSFER_SRC", 0x1), ("TRANSFER_DST", 0x2), ("UNIFORM", 0x4),
   ("STORAGE", 0x8), ("UNIFORM_TEXEL", 0x10), ("STORAGE_TEXEL", 0x20),
   ("INDEX", 0x40), ("INDIRECT", 0x80), ("VERTEX", 0x100)]

/-- The Debug ({:?}) rendering generated by bitflags: the names of the
contained flags joined by a pipe separator, or a fixed empty marker. -/
def Usage.debugStr (u : Usage) : String :=
  let names := (usageFlagNameTable.filter
    (fun p => u.bits &&& p.2 == p.2)).map (fun p => p.1)
  if names.isEmpty then "(empty)" else String.intercalate " | " names

/-- Error::description for ViewError. -/
def ViewError.description : ViewError → String
  | ViewError.Usage _ => "The required usage flag is not present in the image"
  | ViewError.Unsupported => "The backend refused for some reason"

/-- fmt::Display for ViewError: the Usage variant writes description, a
colon separator and the Debug form of the payload; other variants write
the description alone. -/
def ViewError.display (e : ViewError) : String :=
  match e with
  | ViewError.Usage usage => e.description ++ ": " ++ usage.debugStr
  | _ => e.description

/-- Modelled from the spec: memory::Requirements, the external type
consumed here, an aggregate of size, alignment and memory-type mask
(all unsigned integers; this module performs no arithmetic on size or
the mask and only takes a max of alignments, so Nat is exact). -/
structure Requirements where
  size : Nat
  alignment : Nat
  type_mask : Nat
deriving DecidableEq, Repr

/-- Modelled from the spec: the device Limits record, of which this
module reads only min_buffer_copy_offset_alignment. -/
structure Limits where
  min_buffer_copy_offset_alignment : Nat
deriving DecidableEq, Repr

/-- Modelled from the spec: the Device collaborator, reduced to the two
read-only operations complete_requirements uses, over an opaque
unbound-buffer handle type. -/
structure Device (β : Type) where
  get_buffer_requirements : β → Requirements
  get_limits : Limits

/-- complete_requirements: query the device for the buffer requirements;
when the usage can transfer, widen the alignment to the copy-offset
limit. -/
def complete_requirements {β : Type} (device : Device β) (buffer : β)
    (usage : Usage) : Requirements :=
  let requirements := device.get_buffer_requirements buffer
  if usage.can_transfer then
    { requirements with
      alignment := max device.get_limits.min_buffer_copy_offset_alignment
        requirements.alignment }
  else
    requirements

/-- The two operations complete_requirements may invoke on the Device. -/
inductive DeviceCall where
  | getBufferRequirements
  | getLimits
deriving DecidableEq, Repr

/-- complete_requirements instrumented with the sequence of Device calls
it performs, in order; the result component is unchanged. -/
def complete_requirements_trace {β : Type} (device : Device β) (buffer : β)
    (usage : Usage) : Requirements × List DeviceCall :=
  let requirements := device.get_buffer_requirements buffer
  if usage.can_transfer then
    ({ requirements with
       alignment := max device.get_limits.min_buffer_copy_offset_alignment
         requirements.alignment },
     [DeviceCall.getBufferRequirements, DeviceCall.getLimits])
  else
    (requirements, [DeviceCall.getBufferRequirements])

/-- A concrete stub device: requirements {size 256, alignment 4, mask 3},
copy-offset limit 16 (the scenario of the testable properties). -/
def stubDevice : Device Unit :=
  { get_buffer_requirements := fun _ =>
      { size := 256, alignment := 4, type_mask := 3 },
    get_limits := { min_buffer_copy_offset_alignment := 16 } }

/-- Helper: a bitwise or is zero exactly when both operands are. -/
theorem lor_eq_zero (x y : Nat) : x ||| y = 0 ↔ x = 0 ∧ y = 0 := by
  constructor
  · intro h
    constructor
    · apply Nat.eq_of_testBit_eq
      intro i
      have ht : (x ||| y).testBit i = false := by rw [h]; exact Nat.zero_testBit i
      rw [Nat.testBit_or] at ht
      simp only [Nat.zero_testBit]
      exact (Bool.or_eq_false_iff.mp ht).1
    · apply Nat.eq_of_testBit_eq
      intro i
      have ht : (x ||| y).testBit i = false := by rw [h]; exact Nat.zero_testBit i
      rw [Nat.testBit_or] at ht
      simp only [Nat.zero_testBit]
      exact (Bool.or_eq_false_iff.mp ht).2
  · rintro ⟨hx, hy⟩
    simp [hx, hy]

/-- Helper: oring in bits disjoint from a mask leaves the masked value. -/
theorem lor_land_of_disjoint (u a b : Nat) (h : a &&& b = 0) :
    (u ||| a) &&& b = u &&& b := by
  apply Nat.eq_of_testBit_eq
  intro i
  have hab : (a &&& b).testBit i = false := by rw [h]; exact Nat.zero_testBit i
  rw [Nat.testBit_and] at hab
  rw [Nat.testBit_and, Nat.testBit_or, Nat.testBit_and]
  cases ha : a.testBit i <;> cases hu : u.testBit i <;> cases hb : b.testBit i <;>
    simp_all

/-- Helper: a value ored in is fully contained in the result. -/
theorem lor_land_self (u a : Nat) : (u ||| a) &&& a = a := by
  apply Nat.eq_of_testBit_eq
  intro i
  rw [Nat.testBit_and, Nat.testBit_or]
  cases ha : a.testBit i <;> cases hu : u.testBit i <;> simp

/-- The union of the seven named Usage bits other than the transfer pair. -/
def nonTransferUsageUnion : Usage :=
  Usage.union
    (Usage.union (Usage.union Usage.UNIFORM Usage.STORAGE)
      (Usage.union Usage.UNIFORM_TEXEL Usage.STORAGE_TEXEL))
    (Usage.union (Usage.union Usage.INDEX Usage.INDIRECT) Usage.VERTEX)

/-- C1: for a device whose base alignment and copy-offset limit are both at
least 1, complete_requirements returns alignment max(base, limit) when the
usage can transfer, and the base alignment unchanged otherwise. -/
theorem complete_requirements_alignment_formula {β : Type} (device : Device β)
    (buffer : β) (usage : Usage)
    (hA : 1 ≤ (device.get_buffer_requirements buffer).alignment)
    (hL : 1 ≤ device.get_limits.min_buffer_copy_offset_alignment) :
    (complete_requirements device buffer usage).alignment =
      if usage.can_transfer then
        max (device.get_buffer_requirements buffer).alignment
          device.get_limits.min_buffer_copy_offset_alignment
      else (device.get_buffer_requirements buffer).alignment := by
  unfold complete_requirements
  cases hc : usage.can_transfer <;> simp [hc, Nat.max_comm]

/-- C1 witness: the documented scenario, usage TRANSFER_SRC | VERTEX against
the stub device. -/
theorem complete_requirements_alignment_formula_witness :
    1 ≤ (stubDevice.get_buffer_requirements ()).alignment ∧
    1 ≤ stubDevice.get_limits.min_buffer_copy_offset_alignment ∧
    (complete_requirements stubDevice ()
        (Usage.union Usage.TRANSFER_SRC Usage.VERTEX)).alignment =
      (if (Usage.union Usage.TRANSFER_SRC Usage.VERTEX).can_transfer then
        max (stubDevice.get_buffer_requirements ()).alignment
          stubDevice.get_limits.min_buffer_copy_offset_alignment
      else (stubDevice.get_buffer_requirements ()).alignment) :=
  ⟨by decide, by decide,
    complete_requirements_alignment_formula stubDevice ()
      (Usage.union Usage.TRANSFER_SRC Usage.VERTEX) (by decide) (by decide)⟩

/-- C2: the alignment returned by complete_requirements is at least the
backend-reported alignment for every usage and device response. -/
theorem complete_requirements_alignment_widened {β : Type} (device : Device β)
    (buffer : β) (usage : Usage) :
    (device.get_buffer_requirements buffer).alignment ≤
      (complete_requirements device buffer usage).alignment := by
  unfold complete_requirements
  cases hc : usage.can_transfer <;> simp [hc, Nat.le_max_right]

/-- C3: complete_requirements returns the size and memory-type mask
reported by the device unchanged; only alignment is ever modified. -/
theorem complete_requirements_preserves_size_and_mask {β : Type}
    (device : Device β) (buffer : β) (usage : Usage) :
    (complete_requirements device buffer usage).size =
      (device.get_buffer_requirements buffer).size ∧
    (complete_requirements device buffer usage).type_mask =
      (device.get_buffer_requirements buffer).type_mask := by
  unfold complete_requirements
  cases hc : usage.can_transfer <;> simp [hc]

/-- C4: can_transfer holds exactly when the usage meets TRANSFER_SRC or
TRANSFER_DST; it is false on the empty usage and on any value masked to
the other seven named bits. -/
theorem can_transfer_characterization (u : Usage) :
    (u.can_transfer = true ↔
      (u.bits &&& Usage.TRANSFER_SRC.bits ≠ 0 ∨
        u.bits &&& Usage.TRANSFER_DST.bits ≠ 0)) ∧
    Usage.can_transfer ⟨0⟩ = false ∧
    (∀ v : Usage,
      Usage.can_transfer ⟨v.bits &&& nonTransferUsageUnion.bits⟩ = false) := by
  refine ⟨?_, by decide, ?_⟩
  · show ((u.bits &&& (1 ||| 2) != 0) = true ↔ _)
    rw [Nat.and_or_distrib_left]
    simp only [bne_iff_ne, ne_eq, lor_eq_zero]
    tauto
  · intro v
    show ((v.bits &&& 508) &&& 3 != 0) = false
    rw [Nat.and_assoc, (by decide : (508 : Nat) &&& 3 = 0)]
    simp

/-- C5 counterexample: the named Access and Usage constants do share
numeric bit values (TRANSFER_READ and TRANSFER_SRC are both 0x1). -/
theorem access_usage_bits_overlap :
    ¬ (∀ a ∈ accessFlags, ∀ u ∈ usageFlags, a.bits ≠ u.bits) := by decide

/-- C5 amended: the numeric values shared between the nine named Usage
bits and the twelve named Access bits are exactly the seven values
0x1, 0x2, 0x10, 0x20, 0x40, 0x80, 0x100; the namespaces are disjoint
only as types, not numerically. -/
theorem access_usage_shared_bit_values :
    (usageFlags.map Usage.bits).filter
        (fun n => (accessFlags.map Access.bits).contains n) =
      [0x1, 0x2, 0x10, 0x20, 0x40, 0x80, 0x100] := by decide

/-- C6 counterexample: for usage VERTEX (no transfer bit) the function
performs a single device query, not two. -/
theorem complete_requirements_single_query_counterexample :
    (complete_requirements_trace stubDevice () Usage.VERTEX).2 ≠
      [DeviceCall.getBufferRequirements, DeviceCall.getLimits] ∧
    (complete_requirements_trace stubDevice () Usage.VERTEX).2 =
      [DeviceCall.getBufferRequirements] := by decide

/-- C6 amended: complete_requirements queries get_buffer_requirements and
then get_limits when the usage can transfer, and only
get_buffer_requirements otherwise; the instrumented trace computes the
same result as the function. -/
theorem complete_requirements_trace_characterization {β : Type}
    (device : Device β) (buffer : β) (usage : Usage) :
    (complete_requirements_trace device buffer usage).2 =
      (if usage.can_transfer then
        [DeviceCall.getBufferRequirements, DeviceCall.getLimits]
      else [DeviceCall.getBufferRequirements]) ∧
    (complete_requirements_trace device buffer usage).1 =
      complete_requirements device buffer usage := by
  unfold complete_requirements_trace complete_requirements
  cases hc : usage.can_transfer <;> simp [hc]

/-- C7: the Display rendering of ViewError.Usage u is the fixed text, a
colon separator and the Debug form of u; the rendering of
ViewError.Unsupported is exactly the fixed text. -/
theorem viewError_display_rendering :
    (∀ u : Usage, ViewError.display (ViewError.Usage u) =
      "The required usage flag is not present in the image" ++ ": " ++
        Usage.debugStr u) ∧
    ViewError.display ViewError.Unsupported =
      "The backend refused for some reason" :=
  ⟨fun _ => rfl, rfl⟩

/-- C8: the nine named Usage constants are pairwise-disjoint single bits,
and uniting one named bit into a usage never changes membership of a
different named bit while always setting its own. -/
theorem usage_bit_independence :
    List.Pairwise (fun a b => a.bits &&& b.bits = 0) usageFlags ∧
    (∀ a ∈ usageFlags, ∃ k, a.bits = 2 ^ k) ∧
    (∀ a ∈ usageFlags, ∀ b ∈ usageFlags, a ≠ b → ∀ u : Usage,
      Usage.contains (Usage.union u a) b = Usage.contains u b ∧
      Usage.contains (Usage.union u a) a = true) := by
  refine ⟨by decide, ?_, ?_⟩
  · intro a ha
    fin_cases ha
    · exact ⟨0, rfl⟩
    · exact ⟨1, rfl⟩
    · exact ⟨2, rfl⟩
    · exact ⟨3, rfl⟩
    · exact ⟨4, rfl⟩
    · exact ⟨5, rfl⟩
    · exact ⟨6, rfl⟩
    · exact ⟨7, rfl⟩
    · exact ⟨8, rfl⟩
  · intro a ha b hb hne u
    have hd : a.bits &&& b.bits = 0 := by
      fin_cases ha <;> fin_cases hb <;> first
        | exact absurd rfl hne
        | decide
    constructor
    · simp [Usage.contains, Usage.union,
        lor_land_of_disjoint u.bits a.bits b.bits hd]
    · simp [Usage.contains, Usage.union, lor_land_self u.bits a.bits]

/-- C8 witness: TRANSFER_SRC and VERTEX at the empty usage. -/
theorem usage_bit_independence_witness :
    Usage.TRANSFER_SRC ∈ usageFlags ∧ Usage.VERTEX ∈ usageFlags ∧
    Usage.TRANSFER_SRC ≠ Usage.VERTEX ∧
    (Usage.contains (Usage.union ⟨0⟩ Usage.TRANSFER_SRC) Usage.VERTEX =
        Usage.contains ⟨0⟩ Usage.VERTEX ∧
      Usage.contains (Usage.union ⟨0⟩ Usage.TRANSFER_SRC)
        Usage.TRANSFER_SRC = true) :=
  ⟨by decide, by decide, by decide,
    usage_bit_independence.2.2 Usage.TRANSFER_SRC (by decide) Usage.VERTEX
      (by decide) (by decide) ⟨0⟩⟩

/-- C9: complete_requirements is deterministic: two devices giving the same
responses for the given buffers yield identical Requirements for the same
usage, so repeated calls with a side-effect-free stub agree. -/
theorem complete_requirements_deterministic {β γ : Type} (d1 : Device β)
    (d2 : Device γ) (b1 : β) (b2 : γ) (usage : Usage)
    (hreq : d1.get_buffer_requirements b1 = d2.get_buffer_requirements b2)
    (hlim : d1.get_limits = d2.get_limits) :
    complete_requirements d1 b1 usage = complete_requirements d2 b2 usage := by
  unfold complete_requirements
  rw [hreq, hlim]

/-- C9 witness: two calls against the stub device with usage TRANSFER_SRC. -/
theorem complete_requirements_deterministic_witness :
    stubDevice.get_buffer_requirements () =
      stubDevice.get_buffer_requirements () ∧
    stubDevice.get_limits = stubDevice.get_limits ∧
    complete_requirements stubDevice () Usage.TRANSFER_SRC =
      complete_requirements stubDevice () Usage.TRANSFER_SRC :=
  ⟨rfl, rfl,
    complete_requirements_deterministic stubDevice stubDevice () ()
      Usage.TRANSFER_SRC rfl rfl⟩

/-- C10: the twelve Access constants have exactly the values 0x01..0x2000
skipping 0x04 and 0x08, while the nine Usage constants are the contiguous
powers of two 0x1 through 0x100. -/
theorem access_usage_bit_values :
    accessFlags.map Access.bits =
      [0x01, 0x02, 0x10, 0x20, 0x40, 0x80, 0x100, 0x200, 0x400, 0x800,
        0x1000, 0x2000] ∧
    (accessFlags.all (fun a => a.bits != 0x04 && a.bits != 0x08)) = true ∧
    usageFlags.map Usage.bits = (List.range 9).map (fun i => 2 ^ i) := by
  decide

end GfxBuffer
